import Mathlib

/-!
# Verification of the gcal-sdk client library

A shallow embedding of the `gcal_sdk` Python package (modules `auth.py`,
`events.py`, `calendars.py`, `freebusy.py`, `models.py`) together with
theorems settling the specification claims about it.

Conventions of the embedding:
* Python `dict` request/response bodies are modelled by the `JVal` type.
* `datetime.date` / `datetime.datetime` are modelled by `Date` / `DateTime`
  with numeric fields; a timezone is a fixed UTC offset in minutes
  (`Option Int`), `none` modelling a naive datetime.
* The external network transport (`googleapiclient`) is an oracle function
  passed as a parameter; each operation returns, besides its result, the
  list of requests it handed to the transport, so that "performs no network
  call" is the statement that this list is empty.
* Fallible Python code (raising `ValueError`, `FileNotFoundError`,
  `RefreshError`) is modelled with `Except`.
-/

/-- Digit character for `n < 10`, i.e. `chr(48 + n)` as Python's string
formatting produces. -/
def digitChar (n : Nat) : Char := Char.ofNat (48 + n)

/-- Numeric value of a digit character, `ord(c) - 48`. -/
def digitVal (c : Char) : Nat := c.toNat - 48

/-- Two-digit zero padded decimal rendering (`%02d`). -/
def pad2 (n : Nat) : List Char := [digitChar (n / 10), digitChar (n % 10)]

/-- Four-digit zero padded decimal rendering (`%04d`). -/
def pad4 (n : Nat) : List Char :=
  [digitChar (n / 1000), digitChar (n / 100 % 10), digitChar (n / 10 % 10), digitChar (n % 10)]

/-- Six-digit zero padded decimal rendering (`%06d`), used for microseconds. -/
def pad6 (n : Nat) : List Char :=
  [digitChar (n / 100000), digitChar (n / 10000 % 10), digitChar (n / 1000 % 10),
   digitChar (n / 100 % 10), digitChar (n / 10 % 10), digitChar (n % 10)]

/-- Models `datetime.date`: a calendar date.  Python's `date` invariants
(year in 1..9999, month in 1..12, day in 1..31) are tracked by `pyValid`. -/
structure Date where
  year : Nat
  month : Nat
  day : Nat
deriving DecidableEq, Repr

/-- The range invariants `datetime.date` enforces at construction. -/
def Date.pyValid (d : Date) : Bool :=
  1 ≤ d.year && d.year ≤ 9999 && 1 ≤ d.month && d.month ≤ 12 && 1 ≤ d.day && d.day ≤ 31

/-- Models `datetime.datetime` with an optional fixed-offset timezone
(`utcOffsetMinutes = none` models a naive datetime). -/
structure DateTime where
  year : Nat
  month : Nat
  day : Nat
  hour : Nat
  minute : Nat
  second : Nat
  microsecond : Nat
  utcOffsetMinutes : Option Int
deriving DecidableEq, Repr

/-- The range invariants `datetime.datetime` enforces at construction
(timezone offsets are strictly less than one day, in whole minutes). -/
def DateTime.pyValid (t : DateTime) : Bool :=
  1 ≤ t.year && t.year ≤ 9999 && 1 ≤ t.month && t.month ≤ 12 && 1 ≤ t.day && t.day ≤ 31 &&
  t.hour ≤ 23 && t.minute ≤ 59 && t.second ≤ 59 && t.microsecond ≤ 999999 &&
  (match t.utcOffsetMinutes with
   | none => true
   | some off => off.natAbs ≤ 1439)

/-- Models `date.isoformat()`: the characters of `YYYY-MM-DD`. -/
def Date.isoChars (d : Date) : List Char :=
  pad4 d.year ++ '-' :: pad2 d.month ++ '-' :: pad2 d.day

/-- Models `date.isoformat()` as a string. -/
def Date.isoformat (d : Date) : String := String.mk d.isoChars

/-- The UTC-offset suffix that `datetime.isoformat()` appends for an aware
datetime: `±HH:MM` of the offset magnitude; nothing for a naive one. -/
def tzSuffixChars : Option Int → List Char
  | none => []
  | some off =>
    (if off < 0 then '-' else '+') :: pad2 (off.natAbs / 60) ++ ':' :: pad2 (off.natAbs % 60)

/-- Models `datetime.isoformat()`: `YYYY-MM-DDTHH:MM:SS`, then `.ffffff` when the
microsecond field is nonzero, then the offset suffix when aware. -/
def DateTime.isoChars (t : DateTime) : List Char :=
  pad4 t.year ++ '-' :: pad2 t.month ++ '-' :: pad2 t.day ++
  'T' :: pad2 t.hour ++ ':' :: pad2 t.minute ++ ':' :: pad2 t.second ++
  (if t.microsecond = 0 then [] else '.' :: pad6 t.microsecond) ++
  tzSuffixChars t.utcOffsetMinutes

/-- Models `datetime.isoformat()` as a string. -/
def DateTime.isoformat (t : DateTime) : String := String.mk t.isoChars

/-- All characters are decimal digits. -/
def isDigits (cs : List Char) : Bool := cs.all Char.isDigit

/-- Value of a two-digit group. -/
def val2 (c1 c2 : Char) : Nat := digitVal c1 * 10 + digitVal c2

/-- Value of a four-digit group. -/
def val4 (c1 c2 c3 c4 : Char) : Nat :=
  digitVal c1 * 1000 + digitVal c2 * 100 + digitVal c3 * 10 + digitVal c4

/-- Value of a six-digit group. -/
def val6 (c1 c2 c3 c4 c5 c6 : Char) : Nat :=
  digitVal c1 * 100000 + digitVal c2 * 10000 + digitVal c3 * 1000 +
  digitVal c4 * 100 + digitVal c5 * 10 + digitVal c6

/-- ISO date decoding, as pydantic performs on the wire grammar that
`Date.isoformat` emits. -/
def parseDateChars : List Char → Option Date
  | [y1, y2, y3, y4, s1, m1, m2, s2, d1, d2] =>
    if s1 = '-' ∧ s2 = '-' ∧ isDigits [y1, y2, y3, y4, m1, m2, d1, d2] then
      some ⟨val4 y1 y2 y3 y4, val2 m1 m2, val2 d1 d2⟩
    else none
  | _ => none

/-- Decoding of the optional `±HH:MM` offset suffix. -/
def parseTzChars : List Char → Option (Option Int)
  | [] => some none
  | [sgn, h1, h2, c, m1, m2] =>
    if c = ':' ∧ isDigits [h1, h2, m1, m2] then
      if sgn = '+' then some (some ((val2 h1 h2 * 60 + val2 m1 m2 : Nat) : Int))
      else if sgn = '-' then some (some (-((val2 h1 h2 * 60 + val2 m1 m2 : Nat) : Int)))
      else none
    else none
  | _ => none

/-- Decoding of the optional `.ffffff` fraction followed by the offset
suffix. -/
def parseFracTzChars (cs : List Char) : Option (Nat × Option Int) :=
  match cs with
  | c :: f1 :: f2 :: f3 :: f4 :: f5 :: f6 :: rest =>
    if c = '.' ∧ isDigits [f1, f2, f3, f4, f5, f6] then
      (parseTzChars rest).map (fun tz => (val6 f1 f2 f3 f4 f5 f6, tz))
    else (parseTzChars cs).map (fun tz => (0, tz))
  | _ => (parseTzChars cs).map (fun tz => (0, tz))

/-- ISO datetime decoding, as pydantic performs on the wire grammar that
`DateTime.isoformat` emits. -/
def parseDateTimeChars : List Char → Option DateTime
  | y1 :: y2 :: y3 :: y4 :: s1 :: m1 :: m2 :: s2 :: d1 :: d2 :: t0 :: h1 :: h2 :: c1 ::
      n1 :: n2 :: c2 :: e1 :: e2 :: rest =>
    if s1 = '-' ∧ s2 = '-' ∧ t0 = 'T' ∧ c1 = ':' ∧ c2 = ':' ∧
        isDigits [y1, y2, y3, y4, m1, m2, d1, d2, h1, h2, n1, n2, e1, e2] then
      (parseFracTzChars rest).map (fun p =>
        ⟨val4 y1 y2 y3 y4, val2 m1 m2, val2 d1 d2, val2 h1 h2, val2 n1 n2, val2 e1 e2,
         p.1, p.2⟩)
    else none
  | _ => none

/-- ISO date decoding on strings. -/
def Date.parseIso (s : String) : Option Date := parseDateChars s.data

/-- ISO datetime decoding on strings. -/
def DateTime.parseIso (s : String) : Option DateTime := parseDateTimeChars s.data

theorem digitVal_digitChar {n : Nat} (h : n < 10) : digitVal (digitChar n) = n := by
  interval_cases n <;> decide

theorem isDigit_digitChar {n : Nat} (h : n < 10) : (digitChar n).isDigit = true := by
  interval_cases n <;> decide

theorem parseDateChars_digits {a1 a2 a3 a4 b1 b2 c1 c2 : Nat}
    (h1 : a1 < 10) (h2 : a2 < 10) (h3 : a3 < 10) (h4 : a4 < 10)
    (h5 : b1 < 10) (h6 : b2 < 10) (h7 : c1 < 10) (h8 : c2 < 10) :
    parseDateChars [digitChar a1, digitChar a2, digitChar a3, digitChar a4, '-',
      digitChar b1, digitChar b2, '-', digitChar c1, digitChar c2] =
      some ⟨a1 * 1000 + a2 * 100 + a3 * 10 + a4, b1 * 10 + b2, c1 * 10 + c2⟩ := by
  simp [parseDateChars, isDigits, isDigit_digitChar, val4, val2, digitVal_digitChar, *]

/-- Decoding inverts encoding for every date in Python's `date` range. -/
theorem parseIso_isoformat_date (d : Date) (h : d.pyValid = true) :
    Date.parseIso d.isoformat = some d := by
  obtain ⟨y, m, dd⟩ := d
  simp only [Date.pyValid, Bool.and_eq_true, decide_eq_true_eq] at h
  have e1 : y / 1000 < 10 := by omega
  have e2 : y / 100 % 10 < 10 := by omega
  have e3 : y / 10 % 10 < 10 := by omega
  have e4 : y % 10 < 10 := by omega
  have e5 : m / 10 < 10 := by omega
  have e6 : m % 10 < 10 := by omega
  have e7 : dd / 10 < 10 := by omega
  have e8 : dd % 10 < 10 := by omega
  have hlist : Date.isoChars ⟨y, m, dd⟩ =
      [digitChar (y / 1000), digitChar (y / 100 % 10), digitChar (y / 10 % 10),
       digitChar (y % 10), '-', digitChar (m / 10), digitChar (m % 10), '-',
       digitChar (dd / 10), digitChar (dd % 10)] := by
    simp [Date.isoChars, pad4, pad2]
  have hkey := parseDateChars_digits e1 e2 e3 e4 e5 e6 e7 e8
  simp only [Date.parseIso, Date.isoformat, String.mk, hlist, hkey, Option.some.injEq,
    Date.mk.injEq]
  refine ⟨by omega, by omega, by omega⟩

theorem parseTzChars_plus {h1 h2 m1 m2 : Nat}
    (e1 : h1 < 10) (e2 : h2 < 10) (e3 : m1 < 10) (e4 : m2 < 10) :
    parseTzChars ['+', digitChar h1, digitChar h2, ':', digitChar m1, digitChar m2] =
      some (some (((h1 * 10 + h2) * 60 + (m1 * 10 + m2) : Nat) : Int)) := by
  simp [parseTzChars, isDigits, isDigit_digitChar, val2, digitVal_digitChar, *]

theorem parseTzChars_minus {h1 h2 m1 m2 : Nat}
    (e1 : h1 < 10) (e2 : h2 < 10) (e3 : m1 < 10) (e4 : m2 < 10) :
    parseTzChars ['-', digitChar h1, digitChar h2, ':', digitChar m1, digitChar m2] =
      some (some (-(((h1 * 10 + h2) * 60 + (m1 * 10 + m2) : Nat) : Int))) := by
  simp [parseTzChars, isDigits, isDigit_digitChar, val2, digitVal_digitChar, *]

/-- Decoding the offset suffix recovers the offset, for offsets within
Python's strict one-day bound. -/
theorem parseTz_round (o : Option Int)
    (ho : (match o with | none => true | some off => off.natAbs ≤ 1439) = true) :
    parseTzChars (tzSuffixChars o) = some o := by
  match o with
  | none => rfl
  | some off =>
    simp only [decide_eq_true_eq] at ho
    have e1 : off.natAbs / 60 / 10 < 10 := by omega
    have e2 : off.natAbs / 60 % 10 < 10 := by omega
    have e3 : off.natAbs % 60 / 10 < 10 := by omega
    have e4 : off.natAbs % 60 % 10 < 10 := by omega
    by_cases hneg : off < 0
    · have hlist : tzSuffixChars (some off) =
          ['-', digitChar (off.natAbs / 60 / 10), digitChar (off.natAbs / 60 % 10), ':',
           digitChar (off.natAbs % 60 / 10), digitChar (off.natAbs % 60 % 10)] := by
        simp [tzSuffixChars, pad2, hneg]
      rw [hlist, parseTzChars_minus e1 e2 e3 e4]
      have : (((off.natAbs / 60 / 10 * 10 + off.natAbs / 60 % 10) * 60 +
          (off.natAbs % 60 / 10 * 10 + off.natAbs % 60 % 10) : Nat) : Int) = -off := by
        omega
      rw [this, neg_neg]
    · have hlist : tzSuffixChars (some off) =
          ['+', digitChar (off.natAbs / 60 / 10), digitChar (off.natAbs / 60 % 10), ':',
           digitChar (off.natAbs % 60 / 10), digitChar (off.natAbs % 60 % 10)] := by
        simp [tzSuffixChars, pad2, hneg]
      rw [hlist, parseTzChars_plus e1 e2 e3 e4]
      have : (((off.natAbs / 60 / 10 * 10 + off.natAbs / 60 % 10) * 60 +
          (off.natAbs % 60 / 10 * 10 + off.natAbs % 60 % 10) : Nat) : Int) = off := by
        omega
      rw [this]

/-- Decoding the fraction-and-offset tail recovers microseconds and offset. -/
theorem parseFracTz_round (μ : Nat) (hμ : μ ≤ 999999) (o : Option Int)
    (ho : (match o with | none => true | some off => off.natAbs ≤ 1439) = true) :
    parseFracTzChars ((if μ = 0 then [] else '.' :: pad6 μ) ++ tzSuffixChars o) =
      some (μ, o) := by
  by_cases hz : μ = 0
  · subst hz
    rw [show ((if (0 : Nat) = 0 then ([] : List Char) else '.' :: pad6 0) ++
      tzSuffixChars o) = tzSuffixChars o from by simp]
    match o, ho with
    | none, _ => rfl
    | some off, ho =>
      have hlen : tzSuffixChars (some off) =
          ((if off < 0 then '-' else '+') ::
            (pad2 (off.natAbs / 60) ++ ':' :: pad2 (off.natAbs % 60))) := by
        simp [tzSuffixChars]
      rw [show parseFracTzChars (tzSuffixChars (some off)) =
          (parseTzChars (tzSuffixChars (some off))).map (fun tz => (0, tz)) from by
        rw [hlen]; simp [pad2, parseFracTzChars]]
      rw [parseTz_round (some off) ho]
      rfl
  · have f1 : μ / 100000 < 10 := by omega
    have f2 : μ / 10000 % 10 < 10 := by omega
    have f3 : μ / 1000 % 10 < 10 := by omega
    have f4 : μ / 100 % 10 < 10 := by omega
    have f5 : μ / 10 % 10 < 10 := by omega
    have f6 : μ % 10 < 10 := by omega
    simp only [if_neg hz, pad6, List.cons_append, List.nil_append]
    rw [show parseFracTzChars ('.' :: digitChar (μ / 100000) :: digitChar (μ / 10000 % 10) ::
        digitChar (μ / 1000 % 10) :: digitChar (μ / 100 % 10) :: digitChar (μ / 10 % 10) ::
        digitChar (μ % 10) :: tzSuffixChars o) =
        (parseTzChars (tzSuffixChars o)).map (fun tz =>
          (val6 (digitChar (μ / 100000)) (digitChar (μ / 10000 % 10))
            (digitChar (μ / 1000 % 10)) (digitChar (μ / 100 % 10)) (digitChar (μ / 10 % 10))
            (digitChar (μ % 10)), tz)) from by
      simp [parseFracTzChars, isDigits, isDigit_digitChar, *]]
    rw [parseTz_round o ho]
    simp only [Option.map_some', Option.some.injEq, Prod.mk.injEq]
    refine ⟨?_, trivial⟩
    simp only [val6, digitVal_digitChar f1, digitVal_digitChar f2, digitVal_digitChar f3,
      digitVal_digitChar f4, digitVal_digitChar f5, digitVal_digitChar f6]
    omega

theorem parseDateTimeChars_digits {a1 a2 a3 a4 b1 b2 c1 c2 g1 g2 i1 i2 j1 j2 : Nat}
    (e1 : a1 < 10) (e2 : a2 < 10) (e3 : a3 < 10) (e4 : a4 < 10)
    (e5 : b1 < 10) (e6 : b2 < 10) (e7 : c1 < 10) (e8 : c2 < 10)
    (e9 : g1 < 10) (e10 : g2 < 10) (e11 : i1 < 10) (e12 : i2 < 10)
    (e13 : j1 < 10) (e14 : j2 < 10) (rest : List Char) :
    parseDateTimeChars (digitChar a1 :: digitChar a2 :: digitChar a3 :: digitChar a4 :: '-' ::
        digitChar b1 :: digitChar b2 :: '-' :: digitChar c1 :: digitChar c2 :: 'T' ::
        digitChar g1 :: digitChar g2 :: ':' :: digitChar i1 :: digitChar i2 :: ':' ::
        digitChar j1 :: digitChar j2 :: rest) =
      (parseFracTzChars rest).map (fun p =>
        ⟨a1 * 1000 + a2 * 100 + a3 * 10 + a4, b1 * 10 + b2, c1 * 10 + c2,
         g1 * 10 + g2, i1 * 10 + i2, j1 * 10 + j2, p.1, p.2⟩) := by
  simp [parseDateTimeChars, isDigits, isDigit_digitChar, val4, val2, digitVal_digitChar, *]

/-- Decoding inverts encoding for every datetime in Python's range. -/
theorem parseIso_isoformat_datetime (t : DateTime) (h : t.pyValid = true) :
    DateTime.parseIso t.isoformat = some t := by
  obtain ⟨y, m, dd, hh, mi, ss, μ, o⟩ := t
  simp only [DateTime.pyValid, Bool.and_eq_true, decide_eq_true_eq] at h
  obtain ⟨⟨⟨⟨⟨⟨⟨⟨⟨⟨hy1, hy2⟩, hm1⟩, hm2⟩, hd1⟩, hd2⟩, hhh⟩, hmi⟩, hss⟩, hμ⟩, ho⟩ := h
  have e1 : y / 1000 < 10 := by omega
  have e2 : y / 100 % 10 < 10 := by omega
  have e3 : y / 10 % 10 < 10 := by omega
  have e4 : y % 10 < 10 := by omega
  have e5 : m / 10 < 10 := by omega
  have e6 : m % 10 < 10 := by omega
  have e7 : dd / 10 < 10 := by omega
  have e8 : dd % 10 < 10 := by omega
  have e9 : hh / 10 < 10 := by omega
  have e10 : hh % 10 < 10 := by omega
  have e11 : mi / 10 < 10 := by omega
  have e12 : mi % 10 < 10 := by omega
  have e13 : ss / 10 < 10 := by omega
  have e14 : ss % 10 < 10 := by omega
  have hlist : DateTime.isoChars ⟨y, m, dd, hh, mi, ss, μ, o⟩ =
      digitChar (y / 1000) :: digitChar (y / 100 % 10) :: digitChar (y / 10 % 10) ::
      digitChar (y % 10) :: '-' :: digitChar (m / 10) :: digitChar (m % 10) :: '-' ::
      digitChar (dd / 10) :: digitChar (dd % 10) :: 'T' :: digitChar (hh / 10) ::
      digitChar (hh % 10) :: ':' :: digitChar (mi / 10) :: digitChar (mi % 10) :: ':' ::
      digitChar (ss / 10) :: digitChar (ss % 10) ::
      ((if μ = 0 then [] else '.' :: pad6 μ) ++ tzSuffixChars o) := by
    simp [DateTime.isoChars, pad4, pad2]
  have hkey := parseDateTimeChars_digits e1 e2 e3 e4 e5 e6 e7 e8 e9 e10 e11 e12 e13 e14
    ((if μ = 0 then [] else '.' :: pad6 μ) ++ tzSuffixChars o)
  have hfrac := parseFracTz_round μ hμ o ho
  simp only [DateTime.parseIso, DateTime.isoformat, String.mk, hlist, hkey, hfrac,
    Option.map_some', Option.some.injEq, DateTime.mk.injEq, eq_self_iff_true, and_true,
    true_and]
  omega

/-! ## `models.py`: EventDateTime -/

/-- Models `models.EventDateTime`: pydantic model with fields `date`, `date_time`
(wire alias `dateTime`), `time_zone` (wire alias `timeZone`). -/
structure EventDateTime where
  date : Option Date
  date_time : Option DateTime
  time_zone : Option String
deriving DecidableEq, Repr

/-- pydantic `ValidationError`, raised by a failing model validator. -/
inductive ValidationError where
  | valueError : String → ValidationError
deriving DecidableEq, Repr

/-- Models `EventDateTime.check_date_or_datetime`, the `mode="after"` model
validator: rejects a record with both `date` and `date_time` absent. -/
def EventDateTime.check_date_or_datetime (e : EventDateTime) :
    Except ValidationError EventDateTime :=
  if e.date.isNone ∧ e.date_time.isNone then
    .error (.valueError "Either 'date' or 'dateTime' must be set")
  else .ok e

/-- Constructing an `EventDateTime` from field values: pydantic builds the
record and then runs the model validator. -/
def EventDateTime.construct (date : Option Date) (date_time : Option DateTime)
    (time_zone : Option String) : Except ValidationError EventDateTime :=
  EventDateTime.check_date_or_datetime ⟨date, date_time, time_zone⟩

/-- Models `EventDateTime.to_api_dict`: emits only the set fields, under the wire
key names, with dates and datetimes rendered by `isoformat()` and the
timezone passed through verbatim. -/
def EventDateTime.to_api_dict (e : EventDateTime) : List (String × String) :=
  (match e.date with
   | some d => [("date", d.isoformat)]
   | none => []) ++
  (match e.date_time with
   | some t => [("dateTime", t.isoformat)]
   | none => []) ++
  (match e.time_zone with
   | some z => [("timeZone", z)]
   | none => [])

/-- Field lookup in a wire dict (string-valued JSON object). -/
def lookupKey (kv : List (String × String)) (k : String) : Option String :=
  (kv.find? (fun p => p.1 = k)).map (fun p => p.2)

/-- Alias-aware field lookup: with `populate_by_name`, pydantic accepts the
wire alias and falls back to the field name. -/
def lookupAliased (kv : List (String × String)) (wireName fieldName : String) :
    Option String :=
  lookupKey kv wireName <|> lookupKey kv fieldName

/-- Models `EventDateTime.model_validate` on a string-valued wire dict: decodes the
aliased fields (ISO strings for `date` / `dateTime`, verbatim for
`timeZone`) and then runs the model validator. -/
def EventDateTime.model_validate (kv : List (String × String)) :
    Except ValidationError EventDateTime := do
  let dateField ← match lookupKey kv "date" with
    | none => pure (none : Option Date)
    | some s => match Date.parseIso s with
      | some d => pure (some d)
      | none => Except.error (ValidationError.valueError "invalid date")
  let dateTimeField ← match lookupAliased kv "dateTime" "date_time" with
    | none => pure (none : Option DateTime)
    | some s => match DateTime.parseIso s with
      | some t => pure (some t)
      | none => Except.error (ValidationError.valueError "invalid datetime")
  let timeZoneField := lookupAliased kv "timeZone" "time_zone"
  EventDateTime.check_date_or_datetime ⟨dateField, dateTimeField, timeZoneField⟩

/-- Python-range validity of an `EventDateTime`: every set component is a
value `datetime.date` / `datetime.datetime` can hold. -/
def EventDateTime.pyValid (e : EventDateTime) : Bool :=
  (match e.date with | some d => d.pyValid | none => true) &&
  (match e.date_time with | some t => t.pyValid | none => true)

/-! ## JSON values for untyped `dict` bodies -/

/-- Untyped JSON value, modelling the Python `dict`/`list`/scalar bodies the
SDK assembles and sends. Objects and arrays are cons-chains. -/
inductive JVal where
  | s : String → JVal
  | b : Bool → JVal
  | n : Nat → JVal
  | null : JVal
  | arrNil : JVal
  | arrCons : JVal → JVal → JVal
  | objNil : JVal
  | objCons : String → JVal → JVal → JVal
deriving DecidableEq, Repr

/-- Build a JSON array from a list of values. -/
def JVal.arrOf : List JVal → JVal
  | [] => .arrNil
  | v :: vs => .arrCons v (JVal.arrOf vs)

/-- Build a JSON object from a key-value list. -/
def JVal.objOf : List (String × JVal) → JVal
  | [] => .objNil
  | (k, v) :: kvs => .objCons k v (JVal.objOf kvs)

/-- Build a JSON object from a string-valued key-value list. -/
def JVal.strObjOf (kv : List (String × String)) : JVal :=
  JVal.objOf (kv.map (fun p => (p.1, JVal.s p.2)))

/-! ## `events.py`: time guards, body building, listing -/

/-- The caller errors the SDK raises before any network call.
`invalidTimeValue` models the `ValueError` raised for a naive datetime
(the spec's `InvalidTimeValue`). -/
inductive TimeError where
  | invalidTimeValue
deriving DecidableEq, Repr

/-- Models `events._ensure_isoformat`: reject a naive datetime, otherwise render
`isoformat()`. -/
def ensure_isoformat (t : DateTime) : Except TimeError String :=
  if t.utcOffsetMinutes.isNone then .error .invalidTimeValue
  else .ok t.isoformat

/-- A `start`/`end` argument of `create`/`patch`: a plain `datetime` or an
`EventDateTime`. -/
inductive StartEndIn where
  | dt : DateTime → StartEndIn
  | edt : EventDateTime → StartEndIn
deriving DecidableEq, Repr

/-- An attendee argument: a bare email string or a full attendee dict. -/
inductive AttendeeIn where
  | emailStr : String → AttendeeIn
  | record : JVal → AttendeeIn
deriving DecidableEq, Repr

/-- Attendee normalization inside `_build_event_body`: a bare string `a`
becomes `{"email": a}`; a dict passes through. -/
def normalizeAttendee : AttendeeIn → JVal
  | .emailStr a => JVal.objCons "email" (JVal.s a) JVal.objNil
  | .record d => d

/-- Models `events._to_event_datetime`: an `EventDateTime` is serialized via
`to_api_dict`; a plain datetime must be aware and becomes
`{"dateTime": iso}` plus `timeZone` when given. -/
def to_event_datetime (v : StartEndIn) (time_zone : Option String) :
    Except TimeError JVal :=
  match v with
  | .edt e => .ok (JVal.strObjOf e.to_api_dict)
  | .dt t =>
    if t.utcOffsetMinutes.isNone then .error .invalidTimeValue
    else .ok (JVal.objOf (("dateTime", JVal.s t.isoformat) ::
      (match time_zone with
       | some z => [("timeZone", JVal.s z)]
       | none => [])))

/-- Models `events._build_event_body`: a raw `body` wins outright; otherwise the
convenience fields present are assembled in source order. -/
def build_event_body (summary description location : Option String)
    (start end_ : Option StartEndIn) (time_zone : Option String)
    (attendees : Option (List AttendeeIn)) (recurrence : Option (List String))
    (body : Option JVal) : Except TimeError JVal :=
  match body with
  | some b => .ok b
  | none => do
    let startPart ← match start with
      | none => pure (none : Option JVal)
      | some v => (to_event_datetime v time_zone).map some
    let endPart ← match end_ with
      | none => pure (none : Option JVal)
      | some v => (to_event_datetime v time_zone).map some
    Except.ok (JVal.objOf (
      (match summary with | some s => [("summary", JVal.s s)] | none => []) ++
      (match description with | some s => [("description", JVal.s s)] | none => []) ++
      (match location with | some s => [("location", JVal.s s)] | none => []) ++
      (match startPart with | some j => [("start", j)] | none => []) ++
      (match endPart with | some j => [("end", j)] | none => []) ++
      (match attendees with
       | some as => [("attendees", JVal.arrOf (as.map normalizeAttendee))]
       | none => []) ++
      (match recurrence with
       | some rs => [("recurrence", JVal.arrOf (rs.map JVal.s))]
       | none => [])))

/-- The kwargs dict built by `events._build_list_kwargs` for
`events().list()`. -/
structure ListKwargs where
  calendarId : String
  maxResults : Nat
  singleEvents : Bool
  showDeleted : Bool
  timeMin : Option String
  timeMax : Option String
  orderBy : Option String
  q : Option String
  pageToken : Option String
deriving DecidableEq, Repr

/-- Models `events._build_list_kwargs`: always sends `calendarId`, `maxResults`,
`singleEvents`, `showDeleted`; time bounds go through `_ensure_isoformat`
(raising on naive values); the remaining keys only when present. -/
def build_list_kwargs (calendar_id : String) (time_min time_max : Option DateTime)
    (max_results : Nat) (single_events : Bool) (order_by : Option String)
    (q : Option String) (page_token : Option String) (show_deleted : Bool) :
    Except TimeError ListKwargs := do
  let tmin ← match time_min with
    | none => pure (none : Option String)
    | some t => (ensure_isoformat t).map some
  let tmax ← match time_max with
    | none => pure (none : Option String)
    | some t => (ensure_isoformat t).map some
  Except.ok ⟨calendar_id, max_results, single_events, show_deleted, tmin, tmax,
    order_by, q, page_token⟩

/-- One wire page of a list endpoint: an optional `items` array (absent
models a response omitting the field) and an optional `nextPageToken`.
Items are kept at the decoded-record level. -/
structure Page (ρ : Type) where
  items : Option (List ρ)
  nextPageToken : Option String
deriving DecidableEq, Repr

/-- Models `events.list`: build kwargs (may raise before any network call), issue
one request, decode `result.get("items", [])`.  Returns the decoded items
and the requests handed to the transport. -/
def events_list {ρ : Type} (net : ListKwargs → Page ρ) (calendar_id : String)
    (time_min time_max : Option DateTime) (max_results : Nat) (single_events : Bool)
    (order_by : Option String) (q : Option String) (page_token : Option String)
    (show_deleted : Bool) : Except TimeError (List ρ × List ListKwargs) := do
  let kw ← build_list_kwargs calendar_id time_min time_max max_results single_events
    order_by q page_token show_deleted
  let page := net kw
  Except.ok (page.items.getD [], [kw])

/-- Models `events.create`: build the body (raw `body` wins; naive plain datetimes
raise before any network call), then issue one `insert` request. -/
def events_create {ρ : Type} (net : String → JVal → ρ) (calendar_id : String)
    (summary description location : Option String) (start end_ : Option StartEndIn)
    (attendees : Option (List AttendeeIn)) (recurrence : Option (List String))
    (time_zone : Option String) (body : Option JVal) :
    Except TimeError (ρ × List (String × JVal)) := do
  let b ← build_event_body summary description location start end_ time_zone
    attendees recurrence body
  Except.ok (net calendar_id b, [(calendar_id, b)])

/-- Models `events.patch`: same body construction as `create`, then one `patch`
request for `(calendar_id, event_id)`. -/
def events_patch {ρ : Type} (net : String → String → JVal → ρ)
    (calendar_id event_id : String)
    (summary description location : Option String) (start end_ : Option StartEndIn)
    (attendees : Option (List AttendeeIn)) (recurrence : Option (List String))
    (time_zone : Option String) (body : Option JVal) :
    Except TimeError (ρ × List (String × String × JVal)) := do
  let b ← build_event_body summary description location start end_ time_zone
    attendees recurrence body
  Except.ok (net calendar_id event_id b, [(calendar_id, event_id, b)])

/-! ## The `list_all` pagination loop (`events.py` and `calendars.py`) -/

/-- The body of the `while True` pagination loop shared by
`EventsResource.list_all` and `CalendarsResource.list_all`, driven by the
sequence of pages the service will return.  `tok` is the `pageToken` about
to be sent (`none` on the first request).  Each iteration appends
`result.get("items", [])`, reads `result.get("nextPageToken")` and stops
when it is absent or empty (`if not page_token: break`).  Returns `none`
if the loop would request more pages than the service scenario provides,
otherwise the accumulated items and the list of `pageToken` values sent. -/
def paginateGo {ρ : Type} : List (Page ρ) → Option String →
    Option (List ρ × List (Option String))
  | [], _ => none
  | p :: rest, tok =>
    let got := p.items.getD []
    match p.nextPageToken with
    | none => some (got, [tok])
    | some t =>
      if t = "" then some (got, [tok])
      else
        match paginateGo rest (some t) with
        | none => none
        | some (is, toks) => some (got ++ is, tok :: toks)

/-- Models `list_all`: run the pagination loop starting with no page token. -/
def list_all {ρ : Type} (pages : List (Page ρ)) :
    Option (List ρ × List (Option String)) :=
  paginateGo pages none

/-! ## `freebusy.py` and the free/busy models -/

/-- Models `models.BusyPeriod`: one busy interval. -/
structure BusyPeriod where
  start : DateTime
  end_ : DateTime
deriving DecidableEq, Repr

/-- One calendar's entry in the wire response of `freebusy().query()`: the
`busy` array may be omitted, the `errors` array is optional diagnostics. -/
structure CalEntryWire where
  busy : Option (List BusyPeriod)
  errors : Option (List JVal)
deriving DecidableEq, Repr

/-- Models `models.CalendarFreeBusy`: `busy` defaults to the empty list
(`default_factory=list`), `errors` stays optional. -/
structure CalendarFreeBusy where
  busy : List BusyPeriod
  errors : Option (List JVal)
deriving DecidableEq, Repr

/-- pydantic validation of one calendar entry: a missing `busy` field
becomes the empty list; `errors` is carried verbatim. -/
def CalendarFreeBusy.parse (w : CalEntryWire) : CalendarFreeBusy :=
  ⟨w.busy.getD [], w.errors⟩

/-- The wire response of `freebusy().query()`. -/
structure FreeBusyWire where
  kind : Option String
  timeMin : Option DateTime
  timeMax : Option DateTime
  calendars : List (String × CalEntryWire)
deriving DecidableEq, Repr

/-- Models `models.FreeBusyResponse`. -/
structure FreeBusyResponse where
  kind : Option String
  time_min : Option DateTime
  time_max : Option DateTime
  calendars : List (String × CalendarFreeBusy)
deriving DecidableEq, Repr

/-- Models `FreeBusyResponse.from_api_response` (pydantic `model_validate`): every
calendar entry present in the response is decoded; no entry is dropped and
no `errors` field is inspected. -/
def FreeBusyResponse.from_api_response (w : FreeBusyWire) : FreeBusyResponse :=
  ⟨w.kind, w.timeMin, w.timeMax,
   w.calendars.map (fun p => (p.1, CalendarFreeBusy.parse p.2))⟩

/-- The request body `FreeBusyResource.query` assembles. -/
structure FreeBusyBody where
  timeMin : String
  timeMax : String
  items : List String
  timeZone : Option String
  groupExpansionMax : Option Nat
  calendarExpansionMax : Option Nat
deriving DecidableEq, Repr

/-- Models `FreeBusyResource.query`: reject naive time bounds before building the
body or touching the network; otherwise issue one request and decode the
response.  Returns the decoded response and the request bodies sent. -/
def freebusy_query (net : FreeBusyBody → FreeBusyWire) (calendar_ids : List String)
    (time_min time_max : DateTime) (time_zone : Option String)
    (group_expansion_max calendar_expansion_max : Option Nat) :
    Except TimeError (FreeBusyResponse × List FreeBusyBody) :=
  if time_min.utcOffsetMinutes.isNone || time_max.utcOffsetMinutes.isNone then
    .error .invalidTimeValue
  else
    let body : FreeBusyBody := ⟨time_min.isoformat, time_max.isoformat, calendar_ids,
      time_zone, group_expansion_max, calendar_expansion_max⟩
    .ok (FreeBusyResponse.from_api_response (net body), [body])

/-! ## `auth.py`: credential loading, refresh and persistence

The `google.oauth2.credentials.Credentials` object and its refresh exchange
live in the external `google-auth` library (an out-of-scope collaborator per
the spec); they are modelled by the `Creds` structure, an `expired` flag
supplied by the environment, and a refresh oracle giving the outcome of the
`n`-th refresh exchange.  The file system is modelled by existence flags and
the decoded JSON contents of the two files. -/

/-- The default scopes constant `SCOPES`. -/
def SCOPES : List String := ["https://www.googleapis.com/auth/calendar"]

/-- The default `token_uri` used when the stored record lacks one. -/
def defaultTokenUri : String := "https://oauth2.googleapis.com/token"

/-- The decoded JSON contents of the token file: every field is optional
(`dict.get`). -/
structure TokenData where
  token : Option String
  refresh_token : Option String
  token_uri : Option String
  client_id : Option String
  client_secret : Option String
  scopes : Option (List String)
deriving DecidableEq, Repr

/-- An in-memory `Credentials` object.  `expired` models the external
library's expiry test for the held access token. -/
structure Creds where
  token : Option String
  refreshToken : Option String
  tokenUri : String
  clientId : Option String
  clientSecret : Option String
  scopes : List String
  expired : Bool
deriving DecidableEq, Repr

/-- Models `Credentials.valid` in google-auth: a token is held and not expired. -/
def Creds.valid (c : Creds) : Bool := c.token.isSome && !c.expired

/-- Python truthiness of an optional string: `None` and the empty string
are falsy.  Both refresh guards in `load_credentials` test
`creds.refresh_token` this way, so an empty stored refresh token behaves
like an absent one. -/
def pyStrTruthy : Option String → Bool
  | none => false
  | some s => s ≠ ""

/-- The `Credentials(...)` construction in `load_credentials` from the token
file, with its two defaults.  `expired` is the environment's verdict on the
stored access token. -/
def credsFromTokenData (td : TokenData) (expired : Bool) : Creds :=
  { token := td.token
    refreshToken := td.refresh_token
    tokenUri := td.token_uri.getD defaultTokenUri
    clientId := td.client_id
    clientSecret := td.client_secret
    scopes := td.scopes.getD SCOPES
    expired := expired }

/-- One `"installed"` / `"web"` entry of the client credentials file. -/
structure ClientInfo where
  client_id : Option String
  client_secret : Option String
  token_uri : Option String
deriving DecidableEq, Repr

/-- The empty dict `{}`, the default of `cred_data.get("web", {})`. -/
def ClientInfo.empty : ClientInfo := ⟨none, none, none⟩

/-- Python truthiness of the dict behind a `ClientInfo`: an empty dict is
falsy. -/
def ClientInfo.truthy (c : ClientInfo) : Bool := c ≠ ClientInfo.empty

/-- The decoded client credentials file, with its optional `"installed"`
and `"web"` entries. -/
structure CredFile where
  installed : Option ClientInfo
  web : Option ClientInfo
deriving DecidableEq, Repr

/-- Models `cred_data.get("installed") or cred_data.get("web", {})`: the
`installed` entry wins when present and truthy, else the `web` entry when
present, else the empty dict. -/
def CredFile.clientInfo (cf : CredFile) : ClientInfo :=
  match cf.installed with
  | some ci => if ci.truthy then ci else cf.web.getD ClientInfo.empty
  | none => cf.web.getD ClientInfo.empty

/-- A successful refresh exchange response: a new access token and,
when the server rotates it, a new refresh token. -/
structure RefreshResp where
  access_token : String
  refresh_token : Option String
deriving DecidableEq, Repr

/-- Models `creds.refresh(Request())` on success, as google-auth applies the
response: the access token is overwritten, the refresh token replaced only
when rotated, and the credential is no longer expired. -/
def applyRefresh (c : Creds) (r : RefreshResp) : Creds :=
  { c with token := some r.access_token
           refreshToken := r.refresh_token <|> c.refreshToken
           expired := false }

/-- The errors `load_credentials` can surface: the missing-token-file
`FileNotFoundError` (spec `CredentialsNotFound`) and the google-auth
`RefreshError` of a failed refresh exchange (spec `CredentialRefreshError`). -/
inductive AuthError where
  | credentialsNotFound
  | credentialRefreshError
deriving DecidableEq, Repr

/-- The contents `_save_token` writes: the current credential fields, with
`SCOPES` substituted for falsy scopes. -/
def savedTokenData (c : Creds) : TokenData :=
  { token := c.token
    refresh_token := c.refreshToken
    token_uri := some c.tokenUri
    client_id := c.clientId
    client_secret := c.clientSecret
    scopes := some (if c.scopes = [] then SCOPES else c.scopes) }

/-- The observable effects of `load_credentials`: a refresh exchange against
the token endpoint (with the identity it would present), and a token-file
write with the chmod mode applied right after (`0o600 = 384`). -/
inductive AuthEffect where
  | refreshCall : String → Option String → Option String → Option String → AuthEffect
  | saveToken : TokenData → Nat → AuthEffect
deriving DecidableEq, Repr

/-- Models `auth.load_credentials`, decomposed over the environment: the two file
existence flags and decoded contents, the environment's expiry verdict on
the stored token, and the refresh oracle (outcome of the `n`-th refresh
exchange, `none` meaning the exchange fails).  Returns the final credential
and the ordered effects, or the error raised. -/
def load_credentials (tokenExists : Bool) (td : TokenData) (expired : Bool)
    (credExists : Bool) (cf : CredFile) (oracle : Nat → Option RefreshResp) :
    Except AuthError (Creds × List AuthEffect) :=
  if tokenExists = false then .error .credentialsNotFound
  else
    let creds0 := credsFromTokenData td expired
    let step1 : Except AuthError (Creds × List AuthEffect × Nat) :=
      if creds0.expired && pyStrTruthy creds0.refreshToken then
        match oracle 0 with
        | none => .error .credentialRefreshError
        | some r =>
          let c1 := applyRefresh creds0 r
          .ok (c1, [.refreshCall creds0.tokenUri creds0.clientId creds0.clientSecret
              creds0.refreshToken, .saveToken (savedTokenData c1) 384], 1)
      else .ok (creds0, [], 0)
    match step1 with
    | .error e => .error e
    | .ok (c1, tr1, n1) =>
      if !c1.valid && pyStrTruthy c1.refreshToken && credExists then
        let info := cf.clientInfo
        if info.truthy then
          let c2 : Creds :=
            { token := c1.token
              refreshToken := c1.refreshToken
              tokenUri := info.token_uri.getD defaultTokenUri
              clientId := info.client_id
              clientSecret := info.client_secret
              scopes := SCOPES
              expired := false }
          match oracle n1 with
          | none => .error .credentialRefreshError
          | some r =>
            let c3 := applyRefresh c2 r
            .ok (c3, tr1 ++ [.refreshCall c2.tokenUri c2.clientId c2.clientSecret
                c2.refreshToken, .saveToken (savedTokenData c3) 384])
        else .ok (c1, tr1)
      else .ok (c1, tr1)

/-! ## Claims about `auth.load_credentials` -/

/-- C1: for a stored token that is expired with a refresh token present
(present meaning Python-truthy: a non-empty string, as the guard
`creds.expired and creds.refresh_token` tests), `load_credentials`
performs exactly one refresh exchange and, when it succeeds, immediately
persists the refreshed token with mode `0o600` (= 384): the effect list is
literally one `refreshCall` followed by one `saveToken` of the refreshed
credential with mode 384, and nothing else. -/
theorem C1_expired_refreshes_once_and_persists (td : TokenData) (expired : Bool)
    (credExists : Bool) (cf : CredFile) (oracle : Nat → Option RefreshResp)
    (rt : String) (r : RefreshResp)
    (hexp : expired = true) (hrt : td.refresh_token = some rt) (hne : rt ≠ "")
    (hor : oracle 0 = some r) :
    load_credentials true td expired credExists cf oracle =
      Except.ok (applyRefresh (credsFromTokenData td expired) r,
        [AuthEffect.refreshCall (td.token_uri.getD defaultTokenUri) td.client_id
          td.client_secret (some rt),
         AuthEffect.saveToken
          (savedTokenData (applyRefresh (credsFromTokenData td expired) r)) 384]) := by
  subst hexp
  simp [load_credentials, credsFromTokenData, Creds.valid, applyRefresh, pyStrTruthy,
    hrt, hne, hor]

/-- Witness for C1 at a concrete token file, refresh outcome and
environment. -/
theorem C1_witness :
    load_credentials true ⟨some "T1", some "R1", none, some "C", some "S", none⟩ true false
        ⟨none, none⟩ (fun _ => some ⟨"T2", none⟩) =
      Except.ok
        (applyRefresh (credsFromTokenData
            ⟨some "T1", some "R1", none, some "C", some "S", none⟩ true) ⟨"T2", none⟩,
         [AuthEffect.refreshCall defaultTokenUri (some "C") (some "S") (some "R1"),
          AuthEffect.saveToken (savedTokenData (applyRefresh (credsFromTokenData
            ⟨some "T1", some "R1", none, some "C", some "S", none⟩ true) ⟨"T2", none⟩)) 384]) := by
  have h := C1_expired_refreshes_once_and_persists
    ⟨some "T1", some "R1", none, some "C", some "S", none⟩ true false ⟨none, none⟩
    (fun _ => some ⟨"T2", none⟩) "R1" ⟨"T2", none⟩ rfl rfl (by decide) rfl
  simpa [defaultTokenUri] using h

/-- C4: for a stored token that is valid (present and not expired),
`load_credentials` performs zero network calls and returns the credential
exactly as loaded from the token file. -/
theorem C4_valid_token_no_network (td : TokenData) (credExists : Bool) (cf : CredFile)
    (oracle : Nat → Option RefreshResp) (t : String) (h : td.token = some t) :
    load_credentials true td false credExists cf oracle =
      Except.ok (credsFromTokenData td false, []) := by
  simp [load_credentials, credsFromTokenData, Creds.valid, h]

/-- Witness for C4 at a concrete token file. -/
theorem C4_witness :
    load_credentials true ⟨some "T1", some "R1", none, some "C", some "S", none⟩ false true
        ⟨none, none⟩ (fun _ => none) =
      Except.ok (credsFromTokenData
        ⟨some "T1", some "R1", none, some "C", some "S", none⟩ false, []) :=
  C4_valid_token_no_network ⟨some "T1", some "R1", none, some "C", some "S", none⟩ true
    ⟨none, none⟩ (fun _ => none) "T1" rfl

/-- C9: `load_credentials` raises the missing-token-storage error exactly
when the token file does not exist; with the file present that error is
never raised, whatever the environment does. -/
theorem C9_credentials_not_found_iff (tokenExists : Bool) (td : TokenData) (expired : Bool)
    (credExists : Bool) (cf : CredFile) (oracle : Nat → Option RefreshResp) :
    load_credentials tokenExists td expired credExists cf oracle =
      Except.error AuthError.credentialsNotFound ↔ tokenExists = false := by
  constructor
  · intro h
    cases tokenExists with
    | false => rfl
    | true =>
      exfalso
      apply absurd h
      clear h
      simp only [load_credentials]
      rw [if_neg (by simp : ¬(true = false))]
      split
      · rename_i e heq
        split at heq
        · split at heq
          · injection heq with heq2
            subst heq2
            simp
          · simp_all
        · simp_all
      · split
        · split
          · split <;> simp
          · simp
        · simp
  · intro h
    subst h
    rfl

/-- C3 counterexample: a token file whose access token is absent/expired
and which holds no refresh token.  After the (vacuous) refresh attempt and
fallback the credential is still unusable, yet `load_credentials` returns
it successfully instead of failing with the refresh error. -/
theorem C3_counterexample :
    load_credentials true ⟨none, none, none, none, none, none⟩ true true ⟨none, none⟩
        (fun _ => none) =
      Except.ok (credsFromTokenData ⟨none, none, none, none, none, none⟩ true, []) ∧
    (credsFromTokenData ⟨none, none, none, none, none, none⟩ true).valid = false := by
  constructor <;> rfl

/-- C3 amended: `load_credentials` raises the refresh error only when a
refresh exchange is actually attempted and fails; when no refresh can be
attempted (refresh token absent or empty — Python truthiness of the
`creds.refresh_token` guards — or the token not expired and no client
credentials file for the fallback) it returns the credential as loaded —
even when unusable — without raising. -/
theorem C3_amended_refresh_error_only_from_failed_exchange (td : TokenData)
    (expired : Bool) (credExists : Bool) (cf : CredFile)
    (oracle : Nat → Option RefreshResp) :
    (pyStrTruthy td.refresh_token = false →
      load_credentials true td expired credExists cf oracle =
        Except.ok (credsFromTokenData td expired, [])) ∧
    (expired = false → credExists = false →
      load_credentials true td expired credExists cf oracle =
        Except.ok (credsFromTokenData td expired, [])) ∧
    (expired = true → pyStrTruthy td.refresh_token = true → oracle 0 = none →
      load_credentials true td expired credExists cf oracle =
        Except.error AuthError.credentialRefreshError) := by
  refine ⟨?_, ?_, ?_⟩
  · intro h
    simp [load_credentials, credsFromTokenData, Creds.valid, h]
  · intro h1 h2
    subst h1
    subst h2
    simp [load_credentials, credsFromTokenData, Creds.valid]
  · intro h1 h2 h3
    subst h1
    simp [load_credentials, credsFromTokenData, Creds.valid, h2, h3]

/-- Witness for the amended C3, exercising all three conjuncts at concrete
inputs — including an expired token whose stored refresh token is the
empty string, which is returned as loaded without any refresh attempt. -/
theorem C3_amended_witness :
    load_credentials true ⟨none, none, none, none, none, none⟩ true true ⟨none, none⟩
        (fun _ => none) =
      Except.ok (credsFromTokenData ⟨none, none, none, none, none, none⟩ true, []) ∧
    load_credentials true ⟨some "T1", some "", none, some "C", some "S", none⟩ true true
        ⟨none, none⟩ (fun _ => none) =
      Except.ok (credsFromTokenData
        ⟨some "T1", some "", none, some "C", some "S", none⟩ true, []) ∧
    load_credentials true ⟨none, some "R1", none, none, none, none⟩ false false ⟨none, none⟩
        (fun _ => none) =
      Except.ok (credsFromTokenData ⟨none, some "R1", none, none, none, none⟩ false, []) ∧
    load_credentials true ⟨some "T1", some "R1", none, some "C", some "S", none⟩ true true
        ⟨none, none⟩ (fun _ => none) =
      Except.error AuthError.credentialRefreshError := by
  refine ⟨?_, ?_, ?_, ?_⟩
  · exact (C3_amended_refresh_error_only_from_failed_exchange
      ⟨none, none, none, none, none, none⟩ true true ⟨none, none⟩ (fun _ => none)).1 rfl
  · exact (C3_amended_refresh_error_only_from_failed_exchange
      ⟨some "T1", some "", none, some "C", some "S", none⟩ true true ⟨none, none⟩
      (fun _ => none)).1 (by decide)
  · exact (C3_amended_refresh_error_only_from_failed_exchange
      ⟨none, some "R1", none, none, none, none⟩ false false ⟨none, none⟩
      (fun _ => none)).2.1 rfl rfl
  · exact (C3_amended_refresh_error_only_from_failed_exchange
      ⟨some "T1", some "R1", none, some "C", some "S", none⟩ true true ⟨none, none⟩
      (fun _ => none)).2.2 rfl (by decide) rfl

/-! ## Claim about the pagination loop -/

/-- Loop invariant for `paginateGo`: over a scenario whose non-final pages
all carry a non-empty cursor and whose final page carries an absent or
empty one, the loop consumes exactly the given pages, concatenates
`items.getD []` in order, and sends exactly the initial token followed by
each non-final page's cursor. -/
theorem paginateGo_complete {ρ : Type} (ps : List (Page ρ)) (lastPage : Page ρ)
    (tok : Option String)
    (hmid : ∀ p ∈ ps, p.nextPageToken.isSome = true ∧ p.nextPageToken ≠ some "")
    (hlast : lastPage.nextPageToken = none ∨ lastPage.nextPageToken = some "") :
    paginateGo (ps ++ [lastPage]) tok =
      some (((ps ++ [lastPage]).map (fun p => p.items.getD [])).flatten,
        tok :: ps.map (fun p => p.nextPageToken)) := by
  induction ps generalizing tok with
  | nil =>
    rcases hlast with h | h <;> simp [paginateGo, h]
  | cons p ps ih =>
    obtain ⟨h1, h2⟩ := hmid p (List.mem_cons_self p ps)
    obtain ⟨t, ht⟩ := Option.isSome_iff_exists.mp h1
    have hne : t ≠ "" := fun he => h2 (by rw [ht, he])
    have ihx := ih (some t) (fun q hq => hmid q (List.mem_cons_of_mem p hq))
    simp only [List.cons_append, paginateGo, ht, if_neg hne, List.append_eq, ihx,
      List.map_cons, List.flatten_cons]

/-- C2: `list_all` over a service scenario of pages — each non-final page
returning a non-empty cursor, the final page an absent or empty one —
issues the first request with no cursor, re-issues with each returned
cursor verbatim, concatenates every page's decoded items in order (a page
with the items field omitted contributing the empty list via
`items.getD []`), and stops exactly at the final page. -/
theorem C2_list_all_concatenates_pages {ρ : Type} (ps : List (Page ρ))
    (lastPage : Page ρ)
    (hmid : ∀ p ∈ ps, p.nextPageToken.isSome = true ∧ p.nextPageToken ≠ some "")
    (hlast : lastPage.nextPageToken = none ∨ lastPage.nextPageToken = some "") :
    list_all (ps ++ [lastPage]) =
      some (((ps ++ [lastPage]).map (fun p => p.items.getD [])).flatten,
        none :: ps.map (fun p => p.nextPageToken)) :=
  paginateGo_complete ps lastPage none hmid hlast

/-- Witness for C2: three pages, the middle one omitting its items field,
cursors `"p2"`, `"p3"`, `""`. -/
theorem C2_witness :
    list_all ([⟨some [1, 2], some "p2"⟩, ⟨none, some "p3"⟩] ++
        [(⟨some [3], some ""⟩ : Page Nat)]) =
      some ([1, 2, 3], [none, some "p2", some "p3"]) := by
  have h := C2_list_all_concatenates_pages
    [⟨some [1, 2], some "p2"⟩, ⟨none, some "p3"⟩] (⟨some [3], some ""⟩ : Page Nat)
    (by decide) (by decide)
  simpa using h

/-! ## Claims about the time-value guard and body building -/

/-- The SDK's only caller-time error. -/
theorem TimeError.eq_invalid (e : TimeError) : e = TimeError.invalidTimeValue := by
  cases e
  rfl

/-- C5 counterexample: a naive datetime passed as `start` to `create`
together with a raw body override does not raise — the operation succeeds
and a network request is sent, because the override bypasses all
convenience-field processing. -/
theorem C5_counterexample :
    events_create (fun _ _ => ()) "primary" none none none
        (some (StartEndIn.dt ⟨2024, 1, 15, 9, 0, 0, 0, none⟩)) none none none none
        (some JVal.objNil) =
      Except.ok ((), [("primary", JVal.objNil)]) := rfl

/-- C5 amended: a naive datetime passed as `time_min`/`time_max` to events
listing, as a plain `start`/`end` to `create`/`patch` *without a raw body
override*, or as a time bound to a free/busy query, makes the operation
fail with the invalid-time error and send no network request; with a raw
body override the convenience fields are bypassed entirely (C6), so no
validation of them occurs. -/
theorem C5_amended_naive_time_raises_before_network (t : DateTime)
    (h : t.utcOffsetMinutes = none) :
    (∀ (ρ : Type) (net : ListKwargs → Page ρ) (cal : String) (tmax : Option DateTime)
      (mr : Nat) (se : Bool) (ob q pt : Option String) (sd : Bool),
      events_list net cal (some t) tmax mr se ob q pt sd =
        Except.error TimeError.invalidTimeValue) ∧
    (∀ (ρ : Type) (net : ListKwargs → Page ρ) (cal : String) (tmin : Option DateTime)
      (mr : Nat) (se : Bool) (ob q pt : Option String) (sd : Bool),
      events_list net cal tmin (some t) mr se ob q pt sd =
        Except.error TimeError.invalidTimeValue) ∧
    (∀ (ρ : Type) (net : String → JVal → ρ) (cal : String) (su de lo : Option String)
      (en : Option StartEndIn) (at_ : Option (List AttendeeIn))
      (re : Option (List String)) (tz : Option String),
      events_create net cal su de lo (some (StartEndIn.dt t)) en at_ re tz none =
        Except.error TimeError.invalidTimeValue) ∧
    (∀ (ρ : Type) (net : String → JVal → ρ) (cal : String) (su de lo : Option String)
      (st : Option StartEndIn) (at_ : Option (List AttendeeIn))
      (re : Option (List String)) (tz : Option String),
      events_create net cal su de lo st (some (StartEndIn.dt t)) at_ re tz none =
        Except.error TimeError.invalidTimeValue) ∧
    (∀ (ρ : Type) (net : String → String → JVal → ρ) (cal ev : String)
      (su de lo : Option String) (en : Option StartEndIn)
      (at_ : Option (List AttendeeIn)) (re : Option (List String)) (tz : Option String),
      events_patch net cal ev su de lo (some (StartEndIn.dt t)) en at_ re tz none =
        Except.error TimeError.invalidTimeValue) ∧
    (∀ (ρ : Type) (net : String → String → JVal → ρ) (cal ev : String)
      (su de lo : Option String) (st : Option StartEndIn)
      (at_ : Option (List AttendeeIn)) (re : Option (List String)) (tz : Option String),
      events_patch net cal ev su de lo st (some (StartEndIn.dt t)) at_ re tz none =
        Except.error TimeError.invalidTimeValue) ∧
    (∀ (net : FreeBusyBody → FreeBusyWire) (ids : List String) (tmax : DateTime)
      (tz : Option String) (ge ce : Option Nat),
      freebusy_query net ids t tmax tz ge ce = Except.error TimeError.invalidTimeValue) ∧
    (∀ (net : FreeBusyBody → FreeBusyWire) (ids : List String) (tmin : DateTime)
      (tz : Option String) (ge ce : Option Nat),
      freebusy_query net ids tmin t tz ge ce = Except.error TimeError.invalidTimeValue) := by
  refine ⟨?_, ?_, ?_, ?_, ?_, ?_, ?_, ?_⟩
  · intro ρ net cal tmax mr se ob q pt sd
    simp [events_list, build_list_kwargs, ensure_isoformat, h, Except.map, Except.bind,
      Bind.bind, pure, Except.pure]
  · intro ρ net cal tmin mr se ob q pt sd
    match tmin with
    | none =>
      simp [events_list, build_list_kwargs, ensure_isoformat, h, Except.map, Except.bind,
        Bind.bind, pure, Except.pure]
    | some t2 =>
      rcases h2 : t2.utcOffsetMinutes with _ | off <;>
        simp [events_list, build_list_kwargs, ensure_isoformat, h, h2, Except.map,
          Except.bind, Bind.bind, pure, Except.pure]
  · intro ρ net cal su de lo en at_ re tz
    simp [events_create, build_event_body, to_event_datetime, h, Except.map, Except.bind,
      Bind.bind, pure, Except.pure]
  · intro ρ net cal su de lo st at_ re tz
    match st with
    | none =>
      simp [events_create, build_event_body, to_event_datetime, h, Except.map,
        Except.bind, Bind.bind, pure, Except.pure]
    | some (StartEndIn.edt e) =>
      simp [events_create, build_event_body, to_event_datetime, h, Except.map,
        Except.bind, Bind.bind, pure, Except.pure]
    | some (StartEndIn.dt t2) =>
      rcases h2 : t2.utcOffsetMinutes with _ | off <;>
        simp [events_create, build_event_body, to_event_datetime, h, h2, Except.map,
          Except.bind, Bind.bind, pure, Except.pure]
  · intro ρ net cal ev su de lo en at_ re tz
    simp [events_patch, build_event_body, to_event_datetime, h, Except.map, Except.bind,
      Bind.bind, pure, Except.pure]
  · intro ρ net cal ev su de lo st at_ re tz
    match st with
    | none =>
      simp [events_patch, build_event_body, to_event_datetime, h, Except.map,
        Except.bind, Bind.bind, pure, Except.pure]
    | some (StartEndIn.edt e) =>
      simp [events_patch, build_event_body, to_event_datetime, h, Except.map,
        Except.bind, Bind.bind, pure, Except.pure]
    | some (StartEndIn.dt t2) =>
      rcases h2 : t2.utcOffsetMinutes with _ | off <;>
        simp [events_patch, build_event_body, to_event_datetime, h, h2, Except.map,
          Except.bind, Bind.bind, pure, Except.pure]
  · intro net ids tmax tz ge ce
    simp [freebusy_query, h]
  · intro net ids tmin tz ge ce
    simp [freebusy_query, h]

/-- Witness for the amended C5 at a concrete naive datetime, exercising a
listing bound, a `create` end time behind an aware start, and a free/busy
bound. -/
theorem C5_amended_witness :
    events_list (fun _ => (⟨some [0], none⟩ : Page Nat)) "primary"
        (some ⟨2024, 1, 15, 9, 0, 0, 0, none⟩) none 250 true (some "startTime") none none
        false = Except.error TimeError.invalidTimeValue ∧
    events_create (fun _ _ => ()) "primary" (some "meet") none none
        (some (StartEndIn.dt ⟨2024, 1, 15, 9, 0, 0, 0, some 60⟩))
        (some (StartEndIn.dt ⟨2024, 1, 15, 9, 0, 0, 0, none⟩)) none none none none =
      Except.error TimeError.invalidTimeValue ∧
    freebusy_query (fun _ => ⟨none, none, none, []⟩) ["primary"]
        ⟨2024, 1, 15, 9, 0, 0, 0, none⟩ ⟨2024, 1, 16, 9, 0, 0, 0, some 0⟩ none none none =
      Except.error TimeError.invalidTimeValue := by
  have h := C5_amended_naive_time_raises_before_network ⟨2024, 1, 15, 9, 0, 0, 0, none⟩ rfl
  exact ⟨h.1 Nat (fun _ => ⟨some [0], none⟩) "primary" none 250 true (some "startTime")
      none none false,
    h.2.2.2.1 Unit (fun _ _ => ()) "primary" (some "meet") none none
      (some (StartEndIn.dt ⟨2024, 1, 15, 9, 0, 0, 0, some 60⟩)) none none none,
    h.2.2.2.2.2.2.1 (fun _ => ⟨none, none, none, []⟩) ["primary"]
      ⟨2024, 1, 16, 9, 0, 0, 0, some 0⟩ none none none⟩

/-- C6: a raw `body` override is returned by `_build_event_body` exactly
as given, ignoring every convenience field, and `create`/`patch` send
exactly that body as the request. -/
theorem C6_body_override_wins (su de lo : Option String) (st en : Option StartEndIn)
    (tz : Option String) (at_ : Option (List AttendeeIn)) (re : Option (List String))
    (b : JVal) :
    build_event_body su de lo st en tz at_ re (some b) = Except.ok b ∧
    (∀ (ρ : Type) (net : String → JVal → ρ) (cal : String),
      events_create net cal su de lo st en at_ re tz (some b) =
        Except.ok (net cal b, [(cal, b)])) ∧
    (∀ (ρ : Type) (net : String → String → JVal → ρ) (cal ev : String),
      events_patch net cal ev su de lo st en at_ re tz (some b) =
        Except.ok (net cal ev b, [(cal, ev, b)])) :=
  ⟨rfl, fun _ _ _ => rfl, fun _ _ _ _ => rfl⟩

/-! ## Claims about the record models -/

/-- C7 counterexample: constructing an `EventDateTime` with *both* `date`
and `date_time` set passes the validator, so a successfully constructed
record need not have exactly one of the two fields set. -/
theorem C7_counterexample :
    EventDateTime.construct (some ⟨2024, 1, 15⟩)
        (some ⟨2024, 1, 15, 9, 0, 0, 0, some 0⟩) none =
      Except.ok ⟨some ⟨2024, 1, 15⟩, some ⟨2024, 1, 15, 9, 0, 0, 0, some 0⟩, none⟩ ∧
    ((some (⟨2024, 1, 15⟩ : Date)).isSome &&
      (some (⟨2024, 1, 15, 9, 0, 0, 0, some 0⟩ : DateTime)).isSome) = true := by
  constructor <;> rfl

/-- C7 amended: every successfully constructed `EventDateTime` has *at
least* one of `date` and `date_time` set (both may be set), and
construction with both absent fails validation. -/
theorem C7_amended_at_least_one_of_date_datetime (date : Option Date)
    (date_time : Option DateTime) (tz tz2 : Option String) (e : EventDateTime)
    (h : EventDateTime.construct date date_time tz = Except.ok e) :
    (e.date.isSome || e.date_time.isSome) = true ∧
    EventDateTime.construct none none tz2 =
      Except.error (ValidationError.valueError "Either 'date' or 'dateTime' must be set") := by
  refine ⟨?_, rfl⟩
  rw [EventDateTime.construct, EventDateTime.check_date_or_datetime] at h
  split at h
  · exact absurd h (by simp)
  · rename_i hcond
    injection h with h2
    subst h2
    simp only [Option.isNone_iff_eq_none, not_and] at hcond
    rcases date with _ | d
    · rcases date_time with _ | t
      · exact absurd rfl (hcond rfl)
      · rfl
    · rfl

/-- Witness for the amended C7 at a concrete construction. -/
theorem C7_amended_witness :
    (((⟨some ⟨2024, 1, 15⟩, none, none⟩ : EventDateTime).date.isSome ||
      (⟨some ⟨2024, 1, 15⟩, none, none⟩ : EventDateTime).date_time.isSome) = true) ∧
    EventDateTime.construct none none none =
      Except.error (ValidationError.valueError "Either 'date' or 'dateTime' must be set") :=
  C7_amended_at_least_one_of_date_datetime (some ⟨2024, 1, 15⟩) none none none
    ⟨some ⟨2024, 1, 15⟩, none, none⟩ rfl

/-- C8: with timezone-aware bounds a free/busy query always succeeds — the
decoded response carries, for every calendar entry the service returned,
that calendar's `errors` field verbatim next to its (possibly defaulted)
busy list; per-calendar errors never make the call raise. -/
theorem C8_partial_errors_returned_not_raised (net : FreeBusyBody → FreeBusyWire)
    (ids : List String) (tmin tmax : DateTime) (tz : Option String) (ge ce : Option Nat)
    (h1 : tmin.utcOffsetMinutes.isSome = true) (h2 : tmax.utcOffsetMinutes.isSome = true) :
    freebusy_query net ids tmin tmax tz ge ce =
      Except.ok
        (FreeBusyResponse.from_api_response
          (net ⟨tmin.isoformat, tmax.isoformat, ids, tz, ge, ce⟩),
         [⟨tmin.isoformat, tmax.isoformat, ids, tz, ge, ce⟩]) ∧
    (∀ (w : FreeBusyWire) (cid : String) (entry : CalEntryWire),
      (cid, entry) ∈ w.calendars →
        (cid, ⟨entry.busy.getD [], entry.errors⟩) ∈
          (FreeBusyResponse.from_api_response w).calendars) := by
  constructor
  · rw [freebusy_query]
    rw [if_neg]
    simp only [Bool.or_eq_true, Option.isNone_iff_eq_none, not_or]
    constructor
    · intro hc
      rw [hc] at h1
      exact absurd h1 (by simp)
    · intro hc
      rw [hc] at h2
      exact absurd h2 (by simp)
  · intro w cid entry hmem
    have : (cid, ⟨entry.busy.getD [], entry.errors⟩) =
        (fun p : String × CalEntryWire => (p.1, CalendarFreeBusy.parse p.2)) (cid, entry) :=
      rfl
    rw [FreeBusyResponse.from_api_response, this]
    exact List.mem_map_of_mem _ hmem

/-- Witness for C8 at the spec's scenario: `cal1` with an empty busy list,
`cal2` carrying an errors entry; the call succeeds and both are surfaced. -/
theorem C8_witness :
    freebusy_query
        (fun _ => ⟨some "calendar#freeBusy", none, none,
          [("cal1", ⟨some [], none⟩),
           ("cal2", ⟨none, some [JVal.objCons "domain" (JVal.s "x") JVal.objNil]⟩)]⟩)
        ["cal1", "cal2"] ⟨2024, 1, 15, 9, 0, 0, 0, some 0⟩
        ⟨2024, 1, 16, 9, 0, 0, 0, some 0⟩ none none none =
      Except.ok
        (⟨some "calendar#freeBusy", none, none,
          [("cal1", ⟨[], none⟩),
           ("cal2", ⟨[], some [JVal.objCons "domain" (JVal.s "x") JVal.objNil]⟩)]⟩,
         [⟨(⟨2024, 1, 15, 9, 0, 0, 0, some 0⟩ : DateTime).isoformat,
           (⟨2024, 1, 16, 9, 0, 0, 0, some 0⟩ : DateTime).isoformat,
           ["cal1", "cal2"], none, none, none⟩]) := by
  have h := C8_partial_errors_returned_not_raised
    (fun _ => ⟨some "calendar#freeBusy", none, none,
      [("cal1", ⟨some [], none⟩),
       ("cal2", ⟨none, some [JVal.objCons "domain" (JVal.s "x") JVal.objNil]⟩)]⟩)
    ["cal1", "cal2"] ⟨2024, 1, 15, 9, 0, 0, 0, some 0⟩ ⟨2024, 1, 16, 9, 0, 0, 0, some 0⟩
    none none none rfl rfl
  rw [h.1]
  rfl

/-- C10: for every valid `EventDateTime` (validator satisfied, components
in Python's ranges), `to_api_dict` emits exactly the wire keys of the set
fields, and feeding that dict back through the alias-aware constructor
(`model_validate`) reproduces the record exactly. -/
theorem C10_to_api_dict_roundtrip (e : EventDateTime)
    (hval : (e.date.isSome || e.date_time.isSome) = true)
    (hrange : e.pyValid = true) :
    EventDateTime.model_validate e.to_api_dict = Except.ok e ∧
    e.to_api_dict.map Prod.fst =
      (if e.date.isSome then ["date"] else []) ++
      (if e.date_time.isSome then ["dateTime"] else []) ++
      (if e.time_zone.isSome then ["timeZone"] else []) := by
  obtain ⟨od, odt, otz⟩ := e
  simp only [EventDateTime.pyValid, Bool.and_eq_true] at hrange
  rcases od with _ | d <;> rcases odt with _ | t <;> rcases otz with _ | z
  · exact absurd hval (by simp)
  · exact absurd hval (by simp)
  · have hrt := parseIso_isoformat_datetime t hrange.2
    constructor
    · simp [EventDateTime.model_validate, EventDateTime.to_api_dict, lookupKey,
        lookupAliased, List.find?, hrt, EventDateTime.check_date_or_datetime,
        Except.bind, Bind.bind, pure, Except.pure, Except.map]
    · simp [EventDateTime.to_api_dict]
  · have hrt := parseIso_isoformat_datetime t hrange.2
    constructor
    · simp [EventDateTime.model_validate, EventDateTime.to_api_dict, lookupKey,
        lookupAliased, List.find?, hrt, EventDateTime.check_date_or_datetime,
        Except.bind, Bind.bind, pure, Except.pure, Except.map]
    · simp [EventDateTime.to_api_dict]
  · have hrd := parseIso_isoformat_date d hrange.1
    constructor
    · simp [EventDateTime.model_validate, EventDateTime.to_api_dict, lookupKey,
        lookupAliased, List.find?, hrd, EventDateTime.check_date_or_datetime,
        Except.bind, Bind.bind, pure, Except.pure, Except.map]
    · simp [EventDateTime.to_api_dict]
  · have hrd := parseIso_isoformat_date d hrange.1
    constructor
    · simp [EventDateTime.model_validate, EventDateTime.to_api_dict, lookupKey,
        lookupAliased, List.find?, hrd, EventDateTime.check_date_or_datetime,
        Except.bind, Bind.bind, pure, Except.pure, Except.map]
    · simp [EventDateTime.to_api_dict]
  · have hrd := parseIso_isoformat_date d hrange.1
    have hrt := parseIso_isoformat_datetime t hrange.2
    constructor
    · simp [EventDateTime.model_validate, EventDateTime.to_api_dict, lookupKey,
        lookupAliased, List.find?, hrd, hrt, EventDateTime.check_date_or_datetime,
        Except.bind, Bind.bind, pure, Except.pure, Except.map]
    · simp [EventDateTime.to_api_dict]
  · have hrd := parseIso_isoformat_date d hrange.1
    have hrt := parseIso_isoformat_datetime t hrange.2
    constructor
    · simp [EventDateTime.model_validate, EventDateTime.to_api_dict, lookupKey,
        lookupAliased, List.find?, hrd, hrt, EventDateTime.check_date_or_datetime,
        Except.bind, Bind.bind, pure, Except.pure, Except.map]
    · simp [EventDateTime.to_api_dict]

/-- Witness for C10 at a concrete record with both a date-time and a
timezone name set. -/
theorem C10_witness :
    EventDateTime.model_validate
        (⟨none, some ⟨2024, 1, 15, 9, 30, 0, 0, some (-360)⟩,
          some "America/Denver"⟩ : EventDateTime).to_api_dict =
      Except.ok ⟨none, some ⟨2024, 1, 15, 9, 30, 0, 0, some (-360)⟩, some "America/Denver"⟩ ∧
    (⟨none, some ⟨2024, 1, 15, 9, 30, 0, 0, some (-360)⟩,
      some "America/Denver"⟩ : EventDateTime).to_api_dict.map Prod.fst =
      ["dateTime", "timeZone"] := by
  have h := C10_to_api_dict_roundtrip
    ⟨none, some ⟨2024, 1, 15, 9, 30, 0, 0, some (-360)⟩, some "America/Denver"⟩
    (by decide) (by decide)
  exact ⟨h.1, h.2.trans (by decide)⟩
